import Mathlib

/-
Verification of the contact-form controller in src/js/main.js
(client-side rate limiting, attribution source detection, and the
form submit handler), shallowly embedded in Lean.

Conventions of the embedding:
- JS numbers that hold epoch-millisecond timestamps are modelled as Int
  (all arithmetic performed by the code stays far below 2^53, so float
  arithmetic is exact and agrees with Int arithmetic).
- localStorage is modelled as the single cell under the fixed key
  "gc_form_submissions" plus fault flags: `broken` (getItem/localStorage
  access throws), `writeFails` (setItem throws).  A stored string either
  parses as an array of numbers (`Cell.arr`) or makes JSON.parse / the
  subsequent array operations throw (`Cell.junk`).
- Operations that touch storage are written state-passing: they return
  their result together with the storage cell after the call.
-/

namespace GCForm

/-- main.js line 57: RATE_LIMIT_MAX = 10. -/
def RATE_LIMIT_MAX : Nat := 10

/-- main.js line 58: RATE_LIMIT_WINDOW_MS = 60 * 60 * 1000 (one hour). -/
def RATE_LIMIT_WINDOW_MS : Int := 60 * 60 * 1000

/-- Math.ceil (a / b) for integers with b > 0, via the identity
ceil x = -floor (-x); Int division in Lean here is floor division. -/
def ceilDiv (a b : Int) : Int := -((-a) / b)

/-- Math.min over a list of numbers; only ever applied to nonempty lists
by the code (guarded by submissions.length >= RATE_LIMIT_MAX > 0). -/
def minOf : List Int → Int
  | [] => 0
  | x :: xs => xs.foldl min x

/-- The parse status of the string stored under the rate-limit key:
either a JSON array of numbers, or a value on which JSON.parse or the
array operations throw. -/
inductive Cell where
  | arr (l : List Int)
  | junk
deriving DecidableEq

/-- The browser localStorage as seen through the fixed rate-limit key.
`broken` models localStorage access (getItem) throwing, `writeFails`
models setItem throwing (e.g. quota exceeded), `cell` is the stored
value (`none` when getItem returns null). -/
structure LS where
  broken : Bool
  writeFails : Bool
  cell : Option Cell
deriving DecidableEq

/-- The read-and-parse half shared by checkRateLimit and
recordSubmission (main.js lines 63-64 / 88-89): getItem followed by
JSON.parse, with null mapped to []; `.error` marks the paths on which
the JS throws and control transfers to the catch block. -/
def readLedger (ls : LS) : Except Unit (List Int) :=
  if ls.broken then .error ()
  else
    match ls.cell with
    | none => .ok []
    | some (.arr l) => .ok l
    | some .junk => .error ()

/-- main.js line 67 / 93: submissions.filter(ts => now - ts < RATE_LIMIT_WINDOW_MS). -/
def pruneLedger (now : Int) (l : List Int) : List Int :=
  l.filter (fun ts => decide (now - ts < RATE_LIMIT_WINDOW_MS))

/-- main.js line 75: the denial message, with the plural "s" exactly when
minutes !== 1. -/
def deniedMessage (minutes : Int) : String :=
  "Too many submissions. Please try again in " ++ toString minutes ++
    " minute" ++ (if minutes != 1 then "s" else "") ++ "."

/-- The result object of checkRateLimit: either { allowed: true, submissions }
or { allowed: false, message }. -/
inductive RateResult where
  | allowed (submissions : List Int)
  | denied (message : String)
deriving DecidableEq

/-- Whether the result object has allowed = true. -/
def RateResult.isAllowed : RateResult → Bool
  | .allowed _ => true
  | .denied _ => false

/-- main.js lines 60-84: checkRateLimit().  Reads and parses the ledger,
prunes expired entries, denies with a wait message when the remaining
count reaches RATE_LIMIT_MAX, otherwise allows carrying the pruned list.
Any storage/parse fault lands in the catch block (allowed, empty list).
The second component is the storage cell after the call. -/
def checkRateLimit (now : Int) (ls : LS) : RateResult × LS :=
  match readLedger ls with
  | .error _ => (.allowed [], ls)
  | .ok stored =>
      let submissions := pruneLedger now stored
      if RATE_LIMIT_MAX ≤ submissions.length then
        let oldestSubmission := minOf submissions
        let minutes := ceilDiv (oldestSubmission + RATE_LIMIT_WINDOW_MS - now) 60000
        (.denied (deniedMessage minutes), ls)
      else
        (.allowed submissions, ls)

/-- main.js lines 86-100: recordSubmission().  Re-reads the ledger, prunes,
appends now, writes back; a read/parse fault skips everything, a write
fault leaves the stored value unchanged (both swallowed by the catch). -/
def recordSubmission (now : Int) (ls : LS) : LS :=
  match readLedger ls with
  | .error _ => ls
  | .ok stored =>
      let submissions := pruneLedger now stored ++ [now]
      if ls.writeFails then ls
      else { ls with cell := some (.arr submissions) }

/-! ### Attribution source detection (main.js lines 103-145) -/

/-- JS String.prototype.includes on hostnames: pat occurs as a contiguous
substring of s. -/
def listStartsWith : List Char → List Char → Bool
  | [], _ => true
  | _ :: _, [] => false
  | a :: as, b :: bs => a == b && listStartsWith as bs

/-- JS s.includes(pat). -/
def jsIncludes (s pat : String) : Bool :=
  s.toList.tails.any (listStartsWith pat.toList)

/-- The values URLSearchParams.get returns for the three keys the code
queries; `none` when the parameter is absent from the query string,
`some v` (possibly the empty string) when present. -/
structure QueryParams where
  utm_source : Option String
  ref : Option String
  source : Option String
deriving DecidableEq

/-- document.referrer as the code consumes it: the empty string (absent),
a non-empty string the URL constructor rejects, or a parsed URL of which
only the hostname is used. -/
inductive Referrer where
  | absent
  | unparseable
  | parsed (host : String)
deriving DecidableEq

/-- JS truthiness of a possibly-missing string: null and "" are falsy. -/
def truthy : Option String → Bool
  | none => false
  | some s => s ≠ ""

/-- main.js lines 103-145: getSource().  Query-parameter precedence uses
JS truthiness (so a present-but-empty parameter falls through), then
referrer classification by hostname substring tests, then "direct". -/
def getSource (q : QueryParams) (referrer : Referrer) (pageHost : String) : String :=
  if truthy q.utm_source then q.utm_source.getD ""
  else if truthy q.ref then q.ref.getD ""
  else if truthy q.source then q.source.getD ""
  else
    match referrer with
    | .absent => "direct"
    | .unparseable => "unknown"
    | .parsed referrerHost =>
        if referrerHost = pageHost then "internal"
        else if jsIncludes referrerHost "google" then "google"
        else if jsIncludes referrerHost "facebook" || jsIncludes referrerHost "fb.com" then "facebook"
        else if jsIncludes referrerHost "twitter" || jsIncludes referrerHost "t.co" then "twitter"
        else if jsIncludes referrerHost "linkedin" then "linkedin"
        else if jsIncludes referrerHost "instagram" then "instagram"
        else referrerHost

/-- The spec sentence for claim C2 read literally: a query parameter that
is PRESENT (even with an empty value) is returned verbatim.  Built from
the words of the spec, for comparison with getSource. -/
def getSourceClaimed (q : QueryParams) (referrer : Referrer) (pageHost : String) : String :=
  match q.utm_source with
  | some v => v
  | none =>
    match q.ref with
    | some v => v
    | none =>
      match q.source with
      | some v => v
      | none =>
        match referrer with
        | .absent => "direct"
        | .unparseable => "unknown"
        | .parsed referrerHost =>
            if referrerHost = pageHost then "internal"
            else if jsIncludes referrerHost "google" then "google"
            else if jsIncludes referrerHost "facebook" || jsIncludes referrerHost "fb.com" then "facebook"
            else if jsIncludes referrerHost "twitter" || jsIncludes referrerHost "t.co" then "twitter"
            else if jsIncludes referrerHost "linkedin" then "linkedin"
            else if jsIncludes referrerHost "instagram" then "instagram"
            else referrerHost

/-- A query parameter's value when it is present with a non-empty value. -/
def paramNE : Option String → Option String
  | some v => if v = "" then none else some v
  | none => none

/-- The amended spec sentence for claim C2: a query parameter takes
precedence only when present with a NON-EMPTY value; otherwise as in the
claim.  Built from the amended words, for comparison with getSource. -/
def getSourceAmendedSpec (q : QueryParams) (referrer : Referrer) (pageHost : String) : String :=
  match paramNE q.utm_source with
  | some v => v
  | none =>
    match paramNE q.ref with
    | some v => v
    | none =>
      match paramNE q.source with
      | some v => v
      | none =>
        match referrer with
        | .absent => "direct"
        | .unparseable => "unknown"
        | .parsed referrerHost =>
            if referrerHost = pageHost then "internal"
            else if jsIncludes referrerHost "google" then "google"
            else if jsIncludes referrerHost "facebook" || jsIncludes referrerHost "fb.com" then "facebook"
            else if jsIncludes referrerHost "twitter" || jsIncludes referrerHost "t.co" then "twitter"
            else if jsIncludes referrerHost "linkedin" then "linkedin"
            else if jsIncludes referrerHost "instagram" then "instagram"
            else referrerHost

/-! ### The submit handler (main.js lines 150-222) -/

/-- The four named text fields of the contact form (the posted JSON body
built from them on lines 177-191 is not modelled beyond these values:
no claim depends on the remaining payload fields). -/
structure Fields where
  firstName : String
  lastName : String
  email : String
  message : String
deriving DecidableEq

/-- The body of a non-2xx response after response.json().catch(() => ({})):
optional error and message string fields; a body that fails to parse
yields the empty object (both fields none). -/
structure ErrBody where
  error : Option String
  message : Option String
deriving DecidableEq

/-- How the fetch on main.js line 194 settles: a response with an HTTP
status (and, for the non-ok path, the parsed error body), or a rejection
of the promise (network-level failure). -/
inductive FetchOutcome where
  | response (status : Nat) (body : ErrBody)
  | networkError
deriving DecidableEq

/-- Response.ok per the fetch standard: status in the range 200-299. -/
def respOk (status : Nat) : Bool := 200 ≤ status && status < 300

/-- main.js line 210: error.error || error.message || fallback, with JS
truthiness (an empty-string field falls through). -/
def errorText (body : ErrBody) : String :=
  if truthy body.error then body.error.getD ""
  else if truthy body.message then body.message.getD ""
  else "Something went wrong. Please try again."

/-- The spec sentence for claim C7 read literally: render the error field
if PRESENT, else the message field if PRESENT, else the fallback.  Built
from the words of the spec, for comparison with errorText. -/
def errorTextClaimed (body : ErrBody) : String :=
  match body.error with
  | some e => e
  | none =>
    match body.message with
    | some m => m
    | none => "Something went wrong. Please try again."

/-- The amended spec sentence for claim C7: render the error field if
present with a non-empty value, else the message field if present with a
non-empty value, else the fallback. -/
def errorTextAmendedSpec (body : ErrBody) : String :=
  match paramNE body.error with
  | some e => e
  | none =>
    match paramNE body.message with
    | some m => m
    | none => "Something went wrong. Please try again."

/-- Modelled from the spec: the contact page HTML (not under src/) gives
the submit control its original label; main.js line 220 restores the
literal "Send Message", and the spec DOM contract together with the
repository E2E test ("button returns to normal state" expects the text
"Send Message") fixes that as the original label. -/
def ORIGINAL_BUTTON_LABEL : String := "Send Message"

/-- Modelled from the spec: contactForm.reset() restores the HTML default
field values; the contact page HTML is not under src/, and the spec and
the E2E test ("form fields become empty strings") fix the defaults as
empty strings (the hidden honeypot input resets to empty as well). -/
def resetFields : Fields := ⟨"", "", "", ""⟩

/-- The page state the handler reads and writes: field values, the
honeypot input value, the submit button (disabled flag and label), the
formStatus element (textContent, className, style.display), and the
localStorage cell. -/
structure PageState where
  fields : Fields
  honeypot : String
  btnDisabled : Bool
  btnLabel : String
  statusText : String
  statusClass : String
  statusDisplay : String
  ls : LS
deriving DecidableEq

/-- The observable effect of one run of the submit handler: the final
page state plus whether the fetch was issued. -/
structure SubmitTrace where
  page : PageState
  networkCalled : Bool
deriving DecidableEq

/-- main.js lines 150-222: the contactForm submit handler, as a function
of the current time, how the fetch would settle, and the page state.
Guards: honeypot (lines 157-160), rate limit (lines 162-169); then the
sending state (lines 171-175), the fetch, the three terminal branches
(lines 202-217), and the finally block (lines 218-221). -/
def submitHandler (now : Int) (outcome : FetchOutcome) (p : PageState) : SubmitTrace :=
  if p.honeypot ≠ "" then
    ⟨p, false⟩
  else
    match checkRateLimit now p.ls with
    | (.denied msg, ls1) =>
        ⟨{ p with statusText := msg, statusClass := "form-status error",
                  statusDisplay := "block", ls := ls1 }, false⟩
    | (.allowed _, ls1) =>
        let p1 := { p with btnDisabled := true, btnLabel := "Sending...",
                           statusText := "", statusClass := "form-status", ls := ls1 }
        let p2 :=
          match outcome with
          | .response status body =>
              if respOk status then
                { p1 with ls := recordSubmission now p1.ls,
                          statusText := "Thank you for your message! We will get back to you soon.",
                          statusClass := "form-status success",
                          statusDisplay := "block",
                          fields := resetFields, honeypot := "" }
              else
                { p1 with statusText := errorText body,
                          statusClass := "form-status error",
                          statusDisplay := "block" }
          | .networkError =>
              { p1 with statusText := "Unable to send message. Please check your connection and try again.",
                        statusClass := "form-status error",
                        statusDisplay := "block" }
        ⟨{ p2 with btnDisabled := false, btnLabel := "Send Message" }, true⟩

/-- The parts of a run a user can observe: everything except the stored
ledger cell (used to state that storage write faults are invisible). -/
def userVisible (t : SubmitTrace) :
    Fields × String × Bool × String × String × String × String × Bool :=
  (t.page.fields, t.page.honeypot, t.page.btnDisabled, t.page.btnLabel,
   t.page.statusText, t.page.statusClass, t.page.statusDisplay, t.networkCalled)

/-- checkRateLimit performs no storage write: helper frame lemma. -/
theorem checkRateLimit_snd (now : Int) (ls : LS) : (checkRateLimit now ls).2 = ls := by
  unfold checkRateLimit
  cases h : readLedger ls <;> simp [h]
  split <;> simp

/-- One JS truthiness link: a value guarded by truthiness equals the
present-with-non-empty-value view of the same parameter. -/
theorem param_chain (o : Option String) (e : String) :
    (if truthy o then o.getD "" else e) =
      (match paramNE o with | some v => v | none => e) := by
  rcases o with _ | v
  · simp [truthy, paramNE]
  · by_cases h : v = "" <;> simp [truthy, paramNE, h]

/-- The error/message truthiness chain agrees with the non-empty-presence
reading of the spec. -/
theorem errorText_eq_amendedSpec (body : ErrBody) :
    errorText body = errorTextAmendedSpec body := by
  unfold errorText errorTextAmendedSpec
  rw [param_chain body.error, param_chain body.message]

/-- Closed form of the submit handler, with the storage-preservation of
checkRateLimit already applied; every claim about the handler is proved
through this description. -/
theorem submitHandler_unfold (now : Int) (outcome : FetchOutcome) (p : PageState) :
    submitHandler now outcome p =
      if p.honeypot ≠ "" then ⟨p, false⟩
      else
        match (checkRateLimit now p.ls).1 with
        | .denied msg =>
            ⟨{ p with statusText := msg, statusClass := "form-status error",
                      statusDisplay := "block" }, false⟩
        | .allowed _ =>
            match outcome with
            | .response status body =>
                if respOk status then
                  ⟨{ p with fields := resetFields, honeypot := "",
                            btnDisabled := false, btnLabel := "Send Message",
                            statusText := "Thank you for your message! We will get back to you soon.",
                            statusClass := "form-status success", statusDisplay := "block",
                            ls := recordSubmission now p.ls }, true⟩
                else
                  ⟨{ p with btnDisabled := false, btnLabel := "Send Message",
                            statusText := errorText body,
                            statusClass := "form-status error", statusDisplay := "block" }, true⟩
            | .networkError =>
                ⟨{ p with btnDisabled := false, btnLabel := "Send Message",
                          statusText := "Unable to send message. Please check your connection and try again.",
                          statusClass := "form-status error", statusDisplay := "block" }, true⟩ := by
  by_cases hh : p.honeypot ≠ ""
  · simp [submitHandler, hh]
  · have hsnd := checkRateLimit_snd now p.ls
    rcases hcr : checkRateLimit now p.ls with ⟨r, ls1⟩
    rw [hcr] at hsnd
    simp only at hsnd
    subst hsnd
    unfold submitHandler
    rw [if_neg hh, if_neg hh, hcr]
    cases r with
    | denied m => rfl
    | allowed s =>
        cases outcome with
        | response status body => by_cases hok : respOk status = true <;> simp [hok]
        | networkError => rfl

/-! ### Claim theorems -/

/-- C1: for every stored ledger value and current time, checkRateLimit
returns an allowed result iff the count remaining after pruning entries
older than the one-hour window is strictly less than 10, the allowed
result carries exactly the pruned sequence, and with 10 or more
remaining entries it returns a denied result. -/
theorem checkRateLimit_allowed_iff_undercap (now : Int) (w : Bool) (l : List Int) :
    ((checkRateLimit now ⟨false, w, some (.arr l)⟩).1 = .allowed (pruneLedger now l) ↔
      (pruneLedger now l).length < RATE_LIMIT_MAX) ∧
    ((checkRateLimit now ⟨false, w, some (.arr l)⟩).1.isAllowed = true ↔
      (pruneLedger now l).length < RATE_LIMIT_MAX) ∧
    (RATE_LIMIT_MAX ≤ (pruneLedger now l).length ↔
      ∃ m, (checkRateLimit now ⟨false, w, some (.arr l)⟩).1 = .denied m) := by
  by_cases h : RATE_LIMIT_MAX ≤ (pruneLedger now l).length
  · simp [checkRateLimit, readLedger, RateResult.isAllowed, h]
  · simp [checkRateLimit, readLedger, RateResult.isAllowed, h]
    omega

/-- C3: whenever checkRateLimit denies, its message reports a whole-minute
wait m that is the ceiling of (oldest remaining timestamp + window - now)
divided by 60000 (characterized by 60000*(m-1) < delta ≤ 60000*m), worded
"1 minute" exactly when m = 1 and with a plural "s" for every other value. -/
theorem deniedMessage_ceiling_and_plural (now : Int) (w : Bool) (l : List Int) (msg : String)
    (h : (checkRateLimit now ⟨false, w, some (.arr l)⟩).1 = .denied msg) :
    ∃ m : Int,
      msg = "Too many submissions. Please try again in " ++ toString m ++
        " minute" ++ (if m = 1 then "" else "s") ++ "." ∧
      60000 * (m - 1) < minOf (pruneLedger now l) + RATE_LIMIT_WINDOW_MS - now ∧
      minOf (pruneLedger now l) + RATE_LIMIT_WINDOW_MS - now ≤ 60000 * m := by
  by_cases hc : RATE_LIMIT_MAX ≤ (pruneLedger now l).length
  · simp [checkRateLimit, readLedger, hc] at h
    refine ⟨ceilDiv (minOf (pruneLedger now l) + RATE_LIMIT_WINDOW_MS - now) 60000, ?_, ?_, ?_⟩
    · rw [← h]
      unfold deniedMessage
      by_cases h1 : ceilDiv (minOf (pruneLedger now l) + RATE_LIMIT_WINDOW_MS - now) 60000 = 1 <;>
        simp [h1]
    · unfold ceilDiv
      omega
    · unfold ceilDiv
      omega
  · simp [checkRateLimit, readLedger, hc] at h

/-- Witness for C3: ten entries of 600000 at now = 3600000 deny with a
ten-minute wait, and the theorem applies. -/
theorem deniedMessage_ceiling_and_plural_witness :
    (checkRateLimit 3600000 ⟨false, false, some (.arr [600000, 600000, 600000, 600000, 600000,
        600000, 600000, 600000, 600000, 600000])⟩).1 =
      .denied "Too many submissions. Please try again in 10 minutes." ∧
    ∃ m : Int,
      "Too many submissions. Please try again in 10 minutes." =
        "Too many submissions. Please try again in " ++ toString m ++
          " minute" ++ (if m = 1 then "" else "s") ++ "." ∧
      60000 * (m - 1) < minOf (pruneLedger 3600000 [600000, 600000, 600000, 600000, 600000,
        600000, 600000, 600000, 600000, 600000]) + RATE_LIMIT_WINDOW_MS - 3600000 ∧
      minOf (pruneLedger 3600000 [600000, 600000, 600000, 600000, 600000,
        600000, 600000, 600000, 600000, 600000]) + RATE_LIMIT_WINDOW_MS - 3600000 ≤ 60000 * m :=
  ⟨by decide,
   deniedMessage_ceiling_and_plural 3600000 false
     [600000, 600000, 600000, 600000, 600000, 600000, 600000, 600000, 600000, 600000]
     "Too many submissions. Please try again in 10 minutes." (by decide)⟩

/-- C2 counterexample: with the query string carrying utm_source= (present
with empty value) and ref=aff, getSource returns "aff", while the claim
as stated (a present parameter is returned verbatim) demands the empty
string; the claim is false at this input. -/
theorem getSource_presence_counterexample :
    getSource ⟨some "", some "aff", none⟩ .absent "www.gadgetcloud.io" = "aff" ∧
    getSourceClaimed ⟨some "", some "aff", none⟩ .absent "www.gadgetcloud.io" = "" ∧
    getSource ⟨some "", some "aff", none⟩ .absent "www.gadgetcloud.io" ≠
      getSourceClaimed ⟨some "", some "aff", none⟩ .absent "www.gadgetcloud.io" := by
  refine ⟨by decide, by decide, by decide⟩

/-- C2 amended: for every query string and referrer, getSource follows the
claimed precedence where a query parameter wins only when it is present
with a NON-EMPTY value: utm_source, then ref, then source, then referrer
classification ("internal" on the page host, the ordered substring tests
for google/facebook/twitter/linkedin/instagram, the raw host otherwise,
"unknown" for an unparseable referrer), and "direct" with no referrer. -/
theorem getSource_matches_nonempty_precedence (q : QueryParams) (r : Referrer) (ph : String) :
    getSource q r ph = getSourceAmendedSpec q r ph := by
  unfold getSource getSourceAmendedSpec
  rw [param_chain q.utm_source, param_chain q.ref, param_chain q.source]

/-- C4: a non-empty honeypot value makes the handler return immediately:
no network request, no status render, page state untouched. -/
theorem honeypot_aborts_silently (now : Int) (outcome : FetchOutcome) (p : PageState)
    (h : p.honeypot ≠ "") :
    submitHandler now outcome p = ⟨p, false⟩ := by
  simp [submitHandler, h]

/-- Witness for C4 at a concrete bot-filled page. -/
theorem honeypot_aborts_silently_witness :
    (PageState.honeypot ⟨⟨"a", "b", "c", "d"⟩, "bot", false, "Send Message", "",
        "form-status", "", ⟨false, false, none⟩⟩ ≠ "") ∧
    submitHandler 0 .networkError ⟨⟨"a", "b", "c", "d"⟩, "bot", false, "Send Message", "",
        "form-status", "", ⟨false, false, none⟩⟩ =
      ⟨⟨⟨"a", "b", "c", "d"⟩, "bot", false, "Send Message", "",
        "form-status", "", ⟨false, false, none⟩⟩, false⟩ :=
  ⟨by decide, honeypot_aborts_silently 0 .networkError _ (by decide)⟩

/-- C5: with an empty honeypot and a denying rate check, the handler
renders the denial message as an error status and returns with no
network request; nothing else changes. -/
theorem rateLimit_denied_blocks_network (now : Int) (outcome : FetchOutcome) (p : PageState)
    (msg : String) (h0 : p.honeypot = "")
    (h1 : (checkRateLimit now p.ls).1 = .denied msg) :
    submitHandler now outcome p =
      ⟨{ p with statusText := msg, statusClass := "form-status error",
                statusDisplay := "block" }, false⟩ := by
  rw [submitHandler_unfold, if_neg (by simp [h0]), h1]

/-- Witness for C5: a ledger of ten timestamps all within the last hour
denies, and the handler blocks the network call. -/
theorem rateLimit_denied_blocks_network_witness :
    (PageState.honeypot ⟨⟨"a", "b", "c", "d"⟩, "", false, "Send Message", "", "form-status", "",
        ⟨false, false, some (.arr [600000, 600000, 600000, 600000, 600000,
          600000, 600000, 600000, 600000, 600000])⟩⟩ = "") ∧
    (checkRateLimit 3600000 ⟨false, false, some (.arr [600000, 600000, 600000, 600000, 600000,
        600000, 600000, 600000, 600000, 600000])⟩).1 =
      .denied "Too many submissions. Please try again in 10 minutes." ∧
    submitHandler 3600000 (.response 200 ⟨none, none⟩)
        ⟨⟨"a", "b", "c", "d"⟩, "", false, "Send Message", "", "form-status", "",
          ⟨false, false, some (.arr [600000, 600000, 600000, 600000, 600000,
            600000, 600000, 600000, 600000, 600000])⟩⟩ =
      ⟨⟨⟨"a", "b", "c", "d"⟩, "", false, "Send Message",
          "Too many submissions. Please try again in 10 minutes.", "form-status error", "block",
          ⟨false, false, some (.arr [600000, 600000, 600000, 600000, 600000,
            600000, 600000, 600000, 600000, 600000])⟩⟩, false⟩ :=
  ⟨by decide, by decide,
   rateLimit_denied_blocks_network 3600000 (.response 200 ⟨none, none⟩) _
     "Too many submissions. Please try again in 10 minutes." (by decide) (by decide)⟩

/-- C6 counterexample: a 2xx submission whose ledger write fails (setItem
throws) completes the success path, but the stored ledger gains no entry,
against the claim that every 2xx submission appends one. -/
theorem ledger_gain_counterexample :
    let p : PageState := ⟨⟨"a", "b", "c", "d"⟩, "", false, "Send Message", "", "form-status", "",
      ⟨false, true, some (.arr [100])⟩⟩
    (submitHandler 3600000 (.response 200 ⟨none, none⟩) p).networkCalled = true ∧
    respOk 200 = true ∧
    (submitHandler 3600000 (.response 200 ⟨none, none⟩) p).page.statusClass =
      "form-status success" ∧
    (submitHandler 3600000 (.response 200 ⟨none, none⟩) p).page.ls.cell = some (.arr [100]) ∧
    (submitHandler 3600000 (.response 200 ⟨none, none⟩) p).page.ls.cell ≠
      some (.arr (pruneLedger 3600000 [100] ++ [3600000])) := by
  refine ⟨by decide, by decide, by decide, by decide, by decide⟩

/-- C6 amended: for a submission that passes the guards and whose POST
resolves 2xx, the handler hands the stored ledger to recordSubmission,
renders the success status, and resets all form fields (honeypot included)
to empty strings; provided the ledger read succeeds and the write does
not fail, the stored ledger becomes exactly the pruned sequence with the
current timestamp appended. -/
theorem success_records_and_resets (now : Int) (status : Nat) (body : ErrBody) (p : PageState)
    (l : List Int) (h0 : p.honeypot = "")
    (hal : (checkRateLimit now p.ls).1.isAllowed = true) (hok : respOk status = true) :
    (submitHandler now (.response status body) p).networkCalled = true ∧
    (submitHandler now (.response status body) p).page.fields = resetFields ∧
    (submitHandler now (.response status body) p).page.honeypot = "" ∧
    (submitHandler now (.response status body) p).page.statusText =
      "Thank you for your message! We will get back to you soon." ∧
    (submitHandler now (.response status body) p).page.statusClass = "form-status success" ∧
    (submitHandler now (.response status body) p).page.statusDisplay = "block" ∧
    (submitHandler now (.response status body) p).page.ls = recordSubmission now p.ls ∧
    (readLedger p.ls = .ok l → p.ls.writeFails = false →
      (submitHandler now (.response status body) p).page.ls.cell =
        some (.arr (pruneLedger now l ++ [now]))) := by
  rcases hr : (checkRateLimit now p.ls).1 with s | m
  · have ht : submitHandler now (.response status body) p =
        ⟨{ p with fields := resetFields, honeypot := "",
                  btnDisabled := false, btnLabel := "Send Message",
                  statusText := "Thank you for your message! We will get back to you soon.",
                  statusClass := "form-status success", statusDisplay := "block",
                  ls := recordSubmission now p.ls }, true⟩ := by
      rw [submitHandler_unfold, if_neg (by simp [h0]), hr]
      simp [hok]
    rw [ht]
    refine ⟨rfl, rfl, rfl, rfl, rfl, rfl, rfl, fun hread hw => ?_⟩
    show (recordSubmission now p.ls).cell = some (.arr (pruneLedger now l ++ [now]))
    unfold recordSubmission
    rw [hread]
    simp [hw]
  · rw [hr] at hal
    simp [RateResult.isAllowed] at hal

/-- Witness for C6 amended: one fresh entry, healthy storage, a 200
response; the ledger becomes the pruned list plus now. -/
theorem success_records_and_resets_witness :
    (PageState.honeypot ⟨⟨"a", "b", "c", "d"⟩, "", false, "Send Message", "", "form-status", "",
        ⟨false, false, some (.arr [100])⟩⟩ = "") ∧
    ((checkRateLimit 3600000 ⟨false, false, some (.arr [100])⟩).1.isAllowed = true) ∧
    respOk 200 = true ∧
    ((submitHandler 3600000 (.response 200 ⟨none, none⟩)
        ⟨⟨"a", "b", "c", "d"⟩, "", false, "Send Message", "", "form-status", "",
          ⟨false, false, some (.arr [100])⟩⟩).networkCalled = true ∧
      (submitHandler 3600000 (.response 200 ⟨none, none⟩)
        ⟨⟨"a", "b", "c", "d"⟩, "", false, "Send Message", "", "form-status", "",
          ⟨false, false, some (.arr [100])⟩⟩).page.fields = resetFields ∧
      (submitHandler 3600000 (.response 200 ⟨none, none⟩)
        ⟨⟨"a", "b", "c", "d"⟩, "", false, "Send Message", "", "form-status", "",
          ⟨false, false, some (.arr [100])⟩⟩).page.honeypot = "" ∧
      (submitHandler 3600000 (.response 200 ⟨none, none⟩)
        ⟨⟨"a", "b", "c", "d"⟩, "", false, "Send Message", "", "form-status", "",
          ⟨false, false, some (.arr [100])⟩⟩).page.statusText =
        "Thank you for your message! We will get back to you soon." ∧
      (submitHandler 3600000 (.response 200 ⟨none, none⟩)
        ⟨⟨"a", "b", "c", "d"⟩, "", false, "Send Message", "", "form-status", "",
          ⟨false, false, some (.arr [100])⟩⟩).page.statusClass = "form-status success" ∧
      (submitHandler 3600000 (.response 200 ⟨none, none⟩)
        ⟨⟨"a", "b", "c", "d"⟩, "", false, "Send Message", "", "form-status", "",
          ⟨false, false, some (.arr [100])⟩⟩).page.statusDisplay = "block" ∧
      (submitHandler 3600000 (.response 200 ⟨none, none⟩)
        ⟨⟨"a", "b", "c", "d"⟩, "", false, "Send Message", "", "form-status", "",
          ⟨false, false, some (.arr [100])⟩⟩).page.ls =
        recordSubmission 3600000 ⟨false, false, some (.arr [100])⟩ ∧
      (readLedger ⟨false, false, some (.arr [100])⟩ = .ok [100] →
        LS.writeFails ⟨false, false, some (.arr [100])⟩ = false →
        (submitHandler 3600000 (.response 200 ⟨none, none⟩)
          ⟨⟨"a", "b", "c", "d"⟩, "", false, "Send Message", "", "form-status", "",
            ⟨false, false, some (.arr [100])⟩⟩).page.ls.cell =
          some (.arr (pruneLedger 3600000 [100] ++ [3600000])))) :=
  ⟨by decide, by decide, by decide,
   success_records_and_resets 3600000 200 ⟨none, none⟩ _ [100]
     (by decide) (by decide) (by decide)⟩

/-- C7 counterexample: on a 400 response whose body carries an error field
that is present but empty, the handler renders the generic fallback, while
the claim as stated (render the error field if present) demands the empty
string; the claim is false at this input. -/
theorem errorText_presence_counterexample :
    let p : PageState := ⟨⟨"a", "b", "c", "d"⟩, "", false, "Send Message", "", "form-status", "",
      ⟨false, false, none⟩⟩
    (submitHandler 0 (.response 400 ⟨some "", none⟩) p).page.statusText =
      "Something went wrong. Please try again." ∧
    errorTextClaimed ⟨some "", none⟩ = "" ∧
    (submitHandler 0 (.response 400 ⟨some "", none⟩) p).page.statusText ≠
      errorTextClaimed ⟨some "", none⟩ := by
  refine ⟨by decide, by decide, by decide⟩

/-- C7 amended: for a submission that passes the guards and resolves with
a non-2xx status, the handler renders as an error status the body's error
field if present with a non-empty value, else its message field if present
with a non-empty value, else the generic fallback; the form field values
and the stored ledger are left unchanged. -/
theorem httpError_renders_and_preserves (now : Int) (status : Nat) (body : ErrBody)
    (p : PageState) (h0 : p.honeypot = "")
    (hal : (checkRateLimit now p.ls).1.isAllowed = true)
    (hok : respOk status = false) :
    submitHandler now (.response status body) p =
      ⟨{ p with btnDisabled := false, btnLabel := "Send Message",
                statusText := errorTextAmendedSpec body,
                statusClass := "form-status error", statusDisplay := "block" }, true⟩ := by
  rw [submitHandler_unfold, if_neg (by simp [h0])]
  rcases hr : (checkRateLimit now p.ls).1 with s | m
  · simp [hok, errorText_eq_amendedSpec]
  · rw [hr] at hal
    simp [RateResult.isAllowed] at hal

/-- Witness for C7 amended: a 400 response with error "X" renders "X" and
preserves the field values. -/
theorem httpError_renders_and_preserves_witness :
    (PageState.honeypot ⟨⟨"a", "b", "c", "d"⟩, "", false, "Send Message", "", "form-status", "",
        ⟨false, false, none⟩⟩ = "") ∧
    ((checkRateLimit 0 ⟨false, false, none⟩).1.isAllowed = true) ∧
    respOk 400 = false ∧
    submitHandler 0 (.response 400 ⟨some "X", none⟩)
        ⟨⟨"a", "b", "c", "d"⟩, "", false, "Send Message", "", "form-status", "",
          ⟨false, false, none⟩⟩ =
      ⟨⟨⟨"a", "b", "c", "d"⟩, "", false, "Send Message",
          errorTextAmendedSpec ⟨some "X", none⟩, "form-status error", "block",
          ⟨false, false, none⟩⟩, true⟩ :=
  ⟨by decide, by decide, by decide,
   httpError_renders_and_preserves 0 400 ⟨some "X", none⟩ _
     (by decide) (by decide) (by decide)⟩

/-- C8: for every run that passes both guards — whatever the fetch
outcome (2xx, non-2xx, or network failure) — the handler ends with the
submit control re-enabled and its label restored to the original
pre-submit text. -/
theorem button_restored_all_paths (now : Int) (outcome : FetchOutcome) (p : PageState)
    (h0 : p.honeypot = "") (hal : (checkRateLimit now p.ls).1.isAllowed = true)
    (hlbl : p.btnLabel = ORIGINAL_BUTTON_LABEL) :
    (submitHandler now outcome p).page.btnDisabled = false ∧
    (submitHandler now outcome p).page.btnLabel = p.btnLabel := by
  rw [submitHandler_unfold, if_neg (by simp [h0])]
  rcases hr : (checkRateLimit now p.ls).1 with s | m
  · cases outcome with
    | response status body =>
        by_cases hok : respOk status = true <;> simp [hok, hlbl, ORIGINAL_BUTTON_LABEL]
    | networkError => simp [hlbl, ORIGINAL_BUTTON_LABEL]
  · rw [hr] at hal
    simp [RateResult.isAllowed] at hal

/-- Witness for C8 at a concrete network failure. -/
theorem button_restored_all_paths_witness :
    (PageState.honeypot ⟨⟨"a", "b", "c", "d"⟩, "", false, "Send Message", "", "form-status", "",
        ⟨false, false, none⟩⟩ = "") ∧
    ((checkRateLimit 0 ⟨false, false, none⟩).1.isAllowed = true) ∧
    (PageState.btnLabel ⟨⟨"a", "b", "c", "d"⟩, "", false, "Send Message", "", "form-status", "",
        ⟨false, false, none⟩⟩ = ORIGINAL_BUTTON_LABEL) ∧
    (submitHandler 0 .networkError ⟨⟨"a", "b", "c", "d"⟩, "", false, "Send Message", "",
        "form-status", "", ⟨false, false, none⟩⟩).page.btnDisabled = false ∧
    (submitHandler 0 .networkError ⟨⟨"a", "b", "c", "d"⟩, "", false, "Send Message", "",
        "form-status", "", ⟨false, false, none⟩⟩).page.btnLabel =
      PageState.btnLabel ⟨⟨"a", "b", "c", "d"⟩, "", false, "Send Message", "",
        "form-status", "", ⟨false, false, none⟩⟩ :=
  ⟨by decide, by decide, by decide,
   (button_restored_all_paths 0 .networkError _ (by decide) (by decide) (by decide)).1,
   (button_restored_all_paths 0 .networkError _ (by decide) (by decide) (by decide)).2⟩

/-- The rate check never looks at the write-fault flag: helper lemma. -/
theorem checkRateLimit_fst_writeFails (now : Int) (br w1 w2 : Bool) (cell : Option Cell) :
    (checkRateLimit now ⟨br, w1, cell⟩).1 = (checkRateLimit now ⟨br, w2, cell⟩).1 := by
  cases br
  · rcases cell with _ | c
    · rfl
    · cases c with
      | arr l =>
          unfold checkRateLimit readLedger
          by_cases hC : RATE_LIMIT_MAX ≤ (pruneLedger now l).length <;> simp [hC]
      | junk => rfl
  · rfl

/-- C9: storage faults are invisible to the user: an unavailable store or
an unparseable stored value makes checkRateLimit return allowed with the
empty sequence, and the ledger-write fault flag changes nothing a user
can observe about a submit run. -/
theorem storage_faults_invisible :
    (∀ (now : Int) (w : Bool) (cell : Option Cell),
      (checkRateLimit now ⟨true, w, cell⟩).1 = .allowed []) ∧
    (∀ (now : Int) (b w : Bool),
      (checkRateLimit now ⟨b, w, some .junk⟩).1 = .allowed []) ∧
    (∀ (now : Int) (outcome : FetchOutcome) (f : Fields) (hp bl st sc sd : String)
      (bd br w1 w2 : Bool) (cell : Option Cell),
      userVisible (submitHandler now outcome ⟨f, hp, bd, bl, st, sc, sd, ⟨br, w1, cell⟩⟩) =
        userVisible (submitHandler now outcome ⟨f, hp, bd, bl, st, sc, sd, ⟨br, w2, cell⟩⟩)) := by
  refine ⟨fun now w cell => by simp [checkRateLimit, readLedger],
          fun now b w => by cases b <;> simp [checkRateLimit, readLedger],
          fun now outcome f hp bl st sc sd bd br w1 w2 cell => ?_⟩
  have hfst := checkRateLimit_fst_writeFails now br w1 w2 cell
  rw [submitHandler_unfold, submitHandler_unfold]
  by_cases hh : hp ≠ ""
  · simp [hh, userVisible]
  · simp only [ne_eq, not_not] at hh
    subst hh
    rcases hr : (checkRateLimit now ⟨br, w1, cell⟩).1 with s | m
    · rw [hr] at hfst
      rw [← hfst]
      cases outcome with
      | response status body =>
          by_cases hok : respOk status = true <;> simp [hok, userVisible]
      | networkError => simp [userVisible]
    · rw [hr] at hfst
      rw [← hfst]
      simp [userVisible]

/-- C10: checkRateLimit never writes to the stored ledger — the cell after
a call equals the cell before — and over a whole submit run the stored
ledger is either untouched or exactly the result of recordSubmission. -/
theorem checkRateLimit_no_write :
    (∀ (now : Int) (ls : LS), (checkRateLimit now ls).2 = ls) ∧
    (∀ (now : Int) (outcome : FetchOutcome) (p : PageState),
      (submitHandler now outcome p).page.ls = p.ls ∨
      (submitHandler now outcome p).page.ls = recordSubmission now p.ls) := by
  refine ⟨checkRateLimit_snd, fun now outcome p => ?_⟩
  rw [submitHandler_unfold]
  by_cases hh : p.honeypot ≠ ""
  · simp [hh]
  · simp only [hh, if_false]
    rcases hr : (checkRateLimit now p.ls).1 with s | m
    · cases outcome with
      | response status body =>
          by_cases hok : respOk status = true <;> simp [hok]
      | networkError => simp
    · simp

end GCForm
